import Mathlib

/-!
Shallow embedding of the data-retrieval-and-aggregation core of
`src/streamlit_app.py`: the `fetch_popular_videos` function (lines 98-207),
the sort performed by `display_videos` (lines 266-277), the region tagging in
`main` (lines 462-465), and the memoizing cache declared by the
`st.cache_data(show_spinner=False, ttl=300)` decorator (line 98).

Python dictionaries coming from parsed JSON are embedded as structures with
`Option` fields (`none` models an absent key or JSON `null`); machine floats
used only as opaque timestamps are embedded as `Int` seconds; fallible Python
code (`int(...)` conversions, raised `RuntimeError`s) is embedded in `Except`.
Network responses are inputs: the embedded fetch takes the HTTP responses the
two `requests.get` calls would receive and additionally returns the list of
API calls it issued, so that claims about which calls happen are statable.
-/

namespace YT

/-- A JSON value found in a `statistics` count field: the API sends
string-encoded integers, but any JSON number or string is representable. -/
inductive CountV where
  | int (n : Int)
  | str (s : String)
deriving DecidableEq

/-- ASCII whitespace as stripped by Python `int()` around its argument:
space and the control characters tab through carriage return. -/
def isPySpace (c : Char) : Bool :=
  c.toNat = 32 || (9 ≤ c.toNat && c.toNat ≤ 13)

/-- Value of the remaining digit string after its first digit: decimal digits
with single underscores allowed between digits, as Python `int()` accepts. -/
def digitsValCore : List Char → Nat → Option Nat
  | [], acc => some acc
  | c :: cs, acc =>
    if c.isDigit then digitsValCore cs (acc * 10 + (c.toNat - 48))
    else if c.toNat = 95 then
      match cs with
      | [] => none
      | d :: ds =>
        if d.isDigit then digitsValCore ds (acc * 10 + (d.toNat - 48))
        else none
    else none

/-- Digit-string value: `some n` when the character list is a digit string in
Python `int()` syntax (a leading digit, then digits with single underscores
between digits), `none` otherwise. -/
def digitsVal (cs : List Char) : Option Nat :=
  match cs with
  | [] => none
  | c :: rest =>
    if c.isDigit then digitsValCore rest (c.toNat - 48) else none

/-- Python `int(s)` on a string: optional surrounding ASCII whitespace, an
optional sign, then decimal digits (single underscores allowed between
digits) parse to the integer; anything else raises `ValueError`. The API
sends counts as plain decimal strings (spec section 6), for which this is
exact. -/
def pyIntOfString (s : String) : Option Int :=
  let cs := ((s.toList.dropWhile isPySpace).reverse.dropWhile isPySpace).reverse
  match cs with
  | [] => none
  | c :: rest =>
    if c = '-' then (digitsVal rest).map (fun n => -(n : Int))
    else if c = '+' then (digitsVal rest).map (fun n => (n : Int))
    else (digitsVal (c :: rest)).map (fun n => (n : Int))

/-- `int(stats.get(field, 0))` (lines 172-174): a missing field defaults to the
integer 0; a string field is parsed by `int()`, raising `ValueError` (embedded
as `.error`) when it is not a valid integer literal. -/
def pyInt : Option CountV → Except String Int
  | none => .ok 0
  | some (.int n) => .ok n
  | some (.str s) =>
    match pyIntOfString s with
    | some n => .ok n
    | none => .error ("invalid literal for int() with base 10: " ++ s)

/-- Python `a or b` where `a` is `.get("url")` on a thumbnail dict: `None` and
the empty string are falsy, any other string is returned as-is. -/
def pyOrStr : Option String → String → String
  | some s, b => if s = "" then b else s
  | none, b => b

/-- One thumbnail slot object, e.g. `snippet.thumbnails.high`. -/
structure Thumb where
  url : Option String
deriving DecidableEq

/-- The `snippet.thumbnails` dict with its three relevant slots. -/
structure Thumbnails where
  high : Option Thumb
  medium : Option Thumb
  default : Option Thumb
deriving DecidableEq

/-- The `thumb_url` expression (lines 182-187):
`(thumbs.get("high") or {}).get("url") or (thumbs.get("medium") or {}).get("url")
or (thumbs.get("default") or {}).get("url") or ""`. -/
def thumbUrlOf (thumbs : Thumbnails) : String :=
  pyOrStr ((thumbs.high.getD ⟨none⟩).url)
    (pyOrStr ((thumbs.medium.getD ⟨none⟩).url)
      (pyOrStr ((thumbs.default.getD ⟨none⟩).url) ""))

/-- The `snippet` dict of one details item. -/
structure Snippet where
  title : Option String
  channelTitle : Option String
  thumbnails : Option Thumbnails
  publishedAt : Option String
deriving DecidableEq

/-- The `statistics` dict of one details item. -/
structure Statistics where
  viewCount : Option CountV
  likeCount : Option CountV
  commentCount : Option CountV
deriving DecidableEq

/-- One element of `items` in a details (videos endpoint) response. -/
structure DetailsItem where
  id : Option String
  snippet : Option Snippet
  statistics : Option Statistics
deriving DecidableEq

/-- The parsed JSON body of a details response: `data.get("items", [])`. -/
structure DetailsData where
  items : Option (List DetailsItem)
deriving DecidableEq

/-- One element of `items` in a search response; the code reads
`item['id']['videoId']` (line 125). -/
structure SearchItem where
  videoId : String
deriving DecidableEq

/-- The parsed JSON body of a search response. -/
structure SearchData where
  items : Option (List SearchItem)
deriving DecidableEq

/-- An HTTP response as the code observes it: status code, the result of
`resp.json()` (`none` models a JSON parse failure, which raises), and
`resp.text`. -/
structure HttpResp (β : Type) where
  status : Nat
  json : Option β
  text : String

/-- The normalized record appended to `items` (lines 189-199). -/
structure VideoRecord where
  id : Option String
  title : String
  channel : String
  views : Int
  likes : Int
  comments : Int
  thumbnail : String
  publishedAt : String
  region : String
deriving DecidableEq

/-- The `stats_summary` dict (lines 159-164 and 201-205): the three `avg_*`
keys exist only when they were added after the loop. -/
structure StatsSummary where
  total_views : Int
  total_likes : Int
  total_comments : Int
  video_count : Nat
  avg_views : Option ℚ
  avg_likes : Option ℚ
  avg_comments : Option ℚ
deriving DecidableEq

/-- The stats value returned by `fetch_popular_videos`: either the literal
empty dict `{}` returned on the zero-identifier search path (line 128) or the
populated `stats_summary` dict (line 207). -/
inductive RegionStats where
  | empty
  | stats (s : StatsSummary)
deriving DecidableEq

/-- Python truthiness of the returned stats dict, as tested by
`if stats:` in `main` (line 459): `{}` is falsy, any dict with keys truthy. -/
def RegionStats.truthy : RegionStats → Bool
  | .empty => false
  | .stats _ => true

/-- An HTTP request issued by `fetch_popular_videos`, with the parameters the
code puts in the request (lines 112-119, 132-136, 140-146). -/
inductive ApiCall where
  | searchCall (q : String) (maxResults : Nat) (regionCode : String) (key : String)
  | videosByIds (ids : String) (key : String)
  | videosByChart (maxResults : Nat) (regionCode : String) (key : String)
deriving DecidableEq

/-- The loop body for one details item (lines 166-199): extract the three
counts with `int(...)` (any of which may raise), choose the thumbnail, and
build the normalized record with the snippet defaults. -/
def processItem (region : String) (item : DetailsItem) : Except String VideoRecord := do
  let snip := item.snippet.getD ⟨none, none, none, none⟩
  let stats := item.statistics.getD ⟨none, none, none⟩
  let views ← pyInt stats.viewCount
  let likes ← pyInt stats.likeCount
  let comments ← pyInt stats.commentCount
  let thumbs := snip.thumbnails.getD ⟨none, none, none⟩
  .ok {
    id := item.id
    title := snip.title.getD "(제목 없음)"
    channel := snip.channelTitle.getD "(채널 정보 없음)"
    views := views
    likes := likes
    comments := comments
    thumbnail := thumbUrlOf thumbs
    publishedAt := snip.publishedAt.getD ""
    region := region }

/-- The `for item in data.get("items", [])` loop (lines 166-199): builds the
record list in order while accumulating the running sums and the count in the
same pass; a raised `ValueError` aborts the whole loop at the first bad item. -/
def processItems (region : String) :
    List DetailsItem → Except String (List VideoRecord × Int × Int × Int × Nat)
  | [] => .ok ([], 0, 0, 0, 0)
  | item :: rest => do
    let r ← processItem region item
    let (rs, tv, tl, tc, n) ← processItems region rest
    .ok (r :: rs, r.views + tv, r.likes + tl, r.comments + tc, n + 1)

/-- The final `stats_summary` (lines 159-164, 201-205): totals and count from
the loop, the three averages added only when `video_count > 0`, computed by
float division of the totals by the count (embedded exactly in `ℚ`). -/
def mkStatsSummary (tv tl tc : Int) (n : Nat) : StatsSummary :=
  { total_views := tv
    total_likes := tl
    total_comments := tc
    video_count := n
    avg_views := if n > 0 then some ((tv : ℚ) / (n : ℚ)) else none
    avg_likes := if n > 0 then some ((tl : ℚ) / (n : ℚ)) else none
    avg_comments := if n > 0 then some ((tc : ℚ) / (n : ℚ)) else none }

/-- True iff Python repr() leaves the character unchanged under either quote
choice: printable ASCII (codes 32-126) other than the two quote characters
(39, 34) and the backslash (92). -/
def reprPlain (c : Char) : Bool :=
  decide (32 ≤ c.toNat) && decide (c.toNat ≤ 126) &&
  decide (c.toNat ≠ 39) && decide (c.toNat ≠ 34) && decide (c.toNat ≠ 92)

/-- Lowercase hexadecimal digit character for a value below 16. -/
def hexDigitChar (n : Nat) : Char :=
  Char.ofNat (if n < 10 then 48 + n else 87 + n)

/-- The characters Python repr() emits for one character of a string quoted
with quote character code `q`: the backslash and the quote are
backslash-escaped, tab/newline/carriage-return get their named escapes, other
non-printable ASCII becomes a hex escape, and anything else is emitted
verbatim (as Python does for printable characters). -/
def pyReprCharL (q : Nat) (c : Char) : List Char :=
  if c.toNat = 92 then [Char.ofNat 92, Char.ofNat 92]
  else if c.toNat = q then [Char.ofNat 92, c]
  else if c.toNat = 9 then [Char.ofNat 92, Char.ofNat 116]
  else if c.toNat = 10 then [Char.ofNat 92, Char.ofNat 110]
  else if c.toNat = 13 then [Char.ofNat 92, Char.ofNat 114]
  else if c.toNat < 32 || c.toNat = 127 then
    [Char.ofNat 92, Char.ofNat 120,
      hexDigitChar (c.toNat / 16), hexDigitChar (c.toNat % 16)]
  else [c]

/-- Python repr() of a string, as used by str() on a dict value: single
quotes unless the string contains a single quote and no double quote, each
character escaped by `pyReprCharL`. -/
def pyReprStr (s : String) : String :=
  let q : Nat :=
    if (s.data.any (fun c => c.toNat == 39)) &&
       !(s.data.any (fun c => c.toNat == 34)) then 34 else 39
  ⟨Char.ofNat q :: ((s.data.map (pyReprCharL q)).flatten ++ [Char.ofNat q])⟩

/-- `str()` of the error payload (lines 151-155): the parsed JSON body when
`resp.json()` succeeds, otherwise the dict `{"message": resp.text}` as
Python str() renders it, with the text repr-escaped. `pr` stands for Python
str() on the parsed JSON value. -/
def errPayloadStr {β : Type} (pr : β → String) (resp : HttpResp β) : String :=
  match resp.json with
  | some j => pr j
  | none => "\x7b\x27message\x27: " ++ pyReprStr resp.text ++ "\x7d"

/-- The message of the RuntimeError raised on a non-200 details response
(line 155). -/
def detailsErrMsg (pr : DetailsData → String) (dr : HttpResp DetailsData) : String :=
  "YouTube API 오류: HTTP " ++ toString dr.status ++ " - " ++ errPayloadStr pr dr

/-- Handling of the details response (lines 148-207): raise on a status other
than 200 with a message carrying the status and the payload, parse the body,
run the item loop, and attach the stats summary. -/
def handleDetails (pr : DetailsData → String) (region : String)
    (resp : HttpResp DetailsData) :
    Except String (List VideoRecord × RegionStats) :=
  if resp.status ≠ 200 then
    .error (detailsErrMsg pr resp)
  else
    match resp.json with
    | none => .error "JSONDecodeError"
    | some data => do
      let (records, tv, tl, tc, n) ← processItems region (data.items.getD [])
      .ok (records, .stats (mkStatsSummary tv tl tc n))

/-- `fetch_popular_videos` (lines 99-207). The two `requests.get` responses are
inputs (`searchResp` is consulted only on the non-empty-query path); the second
component of the result lists the API calls the code issued, in order. -/
def fetch_popular_videos (pr : DetailsData → String)
    (searchResp : HttpResp SearchData) (detailsResp : HttpResp DetailsData)
    (api_key region : String) (max_results : Nat) (search_query : String)
    (refresh_key : Int) :
    Except String (List VideoRecord × RegionStats) × List ApiCall :=
  let _ := refresh_key
  if search_query ≠ "" then
    let calls := [ApiCall.searchCall search_query max_results region api_key]
    if searchResp.status ≠ 200 then
      (.error ("검색 API 오류: " ++ searchResp.text), calls)
    else
      match searchResp.json with
      | none => (.error "JSONDecodeError", calls)
      | some sdata =>
        let video_ids := (sdata.items.getD []).map SearchItem.videoId
        if video_ids = [] then
          (.ok ([], .empty), calls)
        else
          (handleDetails pr region detailsResp,
            calls ++ [ApiCall.videosByIds (String.intercalate "," video_ids) api_key])
  else
    (handleDetails pr region detailsResp,
      [ApiCall.videosByChart max_results region api_key])

/-- The key of the memoizing cache: the full argument tuple of
`fetch_popular_videos`, including the caller-supplied invalidation token
`refresh_key` (lines 99-104, call site lines 451-457). -/
structure CacheKey where
  api_key : String
  region : String
  max_results : Nat
  search_query : String
  refresh_key : Int
deriving DecidableEq

/-- Lookup in the cache state, an association list from keys to
(stored result, creation timestamp). -/
def cacheLookup {α : Type} : List (CacheKey × α × Int) → CacheKey → Option (α × Int)
  | [], _ => none
  | (k0, r, ts) :: rest, k => if k0 = k then some (r, ts) else cacheLookup rest k

/-- Modelled from the spec: the memoization performed by the
`st.cache_data(show_spinner=False, ttl=300)` decorator on line 98 is Streamlit
framework behaviour whose implementation is not part of this repository.
Following spec section 4.2: memoizes by the full argument tuple including the
invalidation token, with a fixed TTL from first computation, expiry checked
lazily at lookup. Returns (result, new cache state, number of underlying
fetch invocations performed by this call). -/
def fetchCached {α : Type} (f : CacheKey → α) (ttl : Int) (now : Int)
    (st : List (CacheKey × α × Int)) (k : CacheKey) :
    α × List (CacheKey × α × Int) × Nat :=
  match cacheLookup st k with
  | some (r, ts) =>
    if now - ts < ttl then (r, st, 0)
    else (f k, (k, f k, now) :: st, 1)
  | none => (f k, (k, f k, now) :: st, 1)

/-- The sort key fields of `sort_options` (lines 267-273). -/
inductive SortField where
  | views
  | likes
  | comments
  | publishedAt
deriving DecidableEq

/-- `sort_options.get(sort_by, ("views", False))` (lines 267-276): maps the
label to (key field, ascending flag). -/
def sort_options (sort_by : String) : SortField × Bool :=
  if sort_by = "조회수" then (.views, false)
  else if sort_by = "좋아요 수" then (.likes, false)
  else if sort_by = "댓글 수" then (.comments, false)
  else if sort_by = "최신 순" then (.publishedAt, false)
  else if sort_by = "오래된 순" then (.publishedAt, true)
  else (.views, false)

/-- `x.get(sort_key) ≤ y.get(sort_key)` for the chosen field; all fields are
always present on records built by `fetch_popular_videos`, so the Python-side
default 0 never fires. -/
def fieldLe (f : SortField) (a b : VideoRecord) : Bool :=
  match f with
  | .views => decide (a.views ≤ b.views)
  | .likes => decide (a.likes ≤ b.likes)
  | .comments => decide (a.comments ≤ b.comments)
  | .publishedAt => decide (a.publishedAt ≤ b.publishedAt)

/-- `sorted(videos, key=lambda x: x.get(sort_key, 0), reverse=not ascending)`
(line 277): Python's `sorted` is a stable sort, and with `reverse=True` it is
the stable sort under the flipped comparison; both are embedded as the stable
`List.mergeSort`. -/
def display_sort (sort_by : String) (videos : List VideoRecord) : List VideoRecord :=
  let fa := sort_options sort_by
  if fa.2 then videos.mergeSort (fun a b => fieldLe fa.1 a b)
  else videos.mergeSort (fun a b => fieldLe fa.1 b a)

/-- The caller's post-hoc tagging loop in `main` (lines 463-464):
`video["region"] = country` for every returned record. -/
def tagRegion (country : String) (videos : List VideoRecord) : List VideoRecord :=
  videos.map (fun v => { v with region := country })

/-- Fixture: a str() printer for parsed JSON error payloads. -/
def prW : DetailsData → String := fun _ => "payload"

/-- Fixture: a successful search response (unused on the chart path). -/
def srW : HttpResp SearchData := ⟨200, none, ""⟩

/-- Fixture: a well-formed details item with string-encoded counts. -/
def itemW : DetailsItem :=
  ⟨some "a", some ⟨some "t", some "c", none, some "2024-01-01T00:00:00Z"⟩,
   some ⟨some (.str "10"), some (.int 2), some (.str "1")⟩⟩

/-- Fixture: the record `itemW` normalizes to for region `"KR"`. -/
def recW : VideoRecord := ⟨some "a", "t", "c", 10, 2, 1, "", "2024-01-01T00:00:00Z", "KR"⟩

/-- Fixture: a 200 details response whose body holds exactly `itemW`. -/
def drW : HttpResp DetailsData := ⟨200, some ⟨some [itemW]⟩, ""⟩

/-- Fixture: a details item with no `statistics` dict at all. -/
def itemNoStats : DetailsItem := ⟨some "b", none, none⟩

/-- Fixture: a details item whose `viewCount` is the non-numeric string "abc". -/
def itemBadCount : DetailsItem :=
  ⟨some "c", none, some ⟨some (.str "abc"), none, none⟩⟩

/-- Candidate URL of one thumbnail slot: the empty string when the slot or its
url key is absent. Stated from the specification wording for comparison with
the source-derived `thumbUrlOf`. -/
def urlOf (t : Option Thumb) : String := ((t.getD ⟨none⟩).url).getD ""

/-- Spec-side selector: the first non-empty string among the candidates, or
the empty string when there is none. -/
def firstNonEmptySpec : List String → String
  | [] => ""
  | s :: rest => if s ≠ "" then s else firstNonEmptySpec rest

/-- Fixture: a details response with a good item followed by one whose
viewCount is the non-numeric string "abc". -/
def drBad : HttpResp DetailsData := ⟨200, some ⟨some [itemW, itemBadCount]⟩, ""⟩

/-- Fixture: a 403 search response with a quota message body. -/
def srQuota : HttpResp SearchData := ⟨403, none, "quotaExceeded"⟩

/-- Fixture: a 500 details response whose body fails to parse as JSON. -/
def drBoom : HttpResp DetailsData := ⟨500, none, "boom"⟩

/-- Fixture: a 200 details response with zero items. -/
def drEmpty : HttpResp DetailsData := ⟨200, some ⟨some []⟩, ""⟩

/-- Fixture: a 200 search response with zero matches. -/
def srNoHits : HttpResp SearchData := ⟨200, some ⟨some []⟩, ""⟩

/-- Fixture: a 200 search response with exactly one match. -/
def srOne : HttpResp SearchData := ⟨200, some ⟨some [⟨"vid1"⟩]⟩, ""⟩

/-- Fixture: the record `itemNoStats` normalizes to for region `"KR"`. -/
def rNoStats : VideoRecord :=
  ⟨some "b", "(제목 없음)", "(채널 정보 없음)", 0, 0, 0, "", "", "KR"⟩

/-- Fixture: a cache key with invalidation token 0. -/
def kW : CacheKey := ⟨"k", "KR", 10, "", 0⟩

/-- Fixture: the same cache key with invalidation token 1. -/
def kW1 : CacheKey := ⟨"k", "KR", 10, "", 1⟩

/-- Fixture: a cache holding fresh entries for both token values. -/
def stBoth : List (CacheKey × Nat × Int) := [(kW, 5, 0), (kW1, 6, 0)]

/-- Fixture: a 500-view video from region B. -/
def vB : VideoRecord := ⟨some "b", "B500", "ch", 500, 0, 0, "", "", "B"⟩

/-- Fixture: the first 100-view video from region A. -/
def vA1 : VideoRecord := ⟨some "a1", "A100a", "ch", 100, 0, 0, "", "", "A"⟩

/-- Fixture: the second 100-view video from region A. -/
def vA2 : VideoRecord := ⟨some "a2", "A100b", "ch", 100, 0, 0, "", "", "A"⟩

/-- Every successfully processed item yields a record whose region field is the
region argument (line 198). -/
theorem processItem_region (region : String) (item : DetailsItem) (r : VideoRecord)
    (h : processItem region item = .ok r) : r.region = region := by
  unfold processItem at h
  cases hv : pyInt (item.statistics.getD ⟨none, none, none⟩).viewCount with
  | error e => simp [hv, Bind.bind, Except.bind] at h
  | ok v =>
    cases hl : pyInt (item.statistics.getD ⟨none, none, none⟩).likeCount with
    | error e => simp [hv, hl, Bind.bind, Except.bind] at h
    | ok l =>
      cases hc : pyInt (item.statistics.getD ⟨none, none, none⟩).commentCount with
      | error e => simp [hv, hl, hc, Bind.bind, Except.bind] at h
      | ok c =>
        simp [hv, hl, hc, Bind.bind, Except.bind] at h
        subst h
        rfl

/-- Loop invariant (lines 166-199): on success the accumulated sums are the
sums over the returned records, the count is their number, and every record
carries the region argument. -/
theorem processItems_ok_inv (region : String) :
    ∀ (its : List DetailsItem) (records : List VideoRecord) (tv tl tc : Int) (n : Nat),
    processItems region its = .ok (records, tv, tl, tc, n) →
    tv = (records.map VideoRecord.views).sum ∧
    tl = (records.map VideoRecord.likes).sum ∧
    tc = (records.map VideoRecord.comments).sum ∧
    n = records.length ∧
    ∀ v ∈ records, v.region = region := by
  intro its
  induction its with
  | nil =>
    intro records tv tl tc n h
    simp only [processItems] at h
    injection h with h
    simp only [Prod.mk.injEq] at h
    obtain ⟨h1, h2, h3, h4, h5⟩ := h
    subst h1; subst h2; subst h3; subst h4; subst h5
    simp
  | cons item rest ih =>
    intro records tv tl tc n h
    simp only [processItems, Bind.bind, Except.bind] at h
    cases hr : processItem region item with
    | error e => simp [hr] at h
    | ok r =>
      cases hrest : processItems region rest with
      | error e => simp [hr, hrest] at h
      | ok q =>
        obtain ⟨rs, tv0, tl0, tc0, n0⟩ := q
        simp only [hr, hrest] at h
        injection h with h
        simp only [Prod.mk.injEq] at h
        obtain ⟨h1, h2, h3, h4, h5⟩ := h
        obtain ⟨g1, g2, g3, g4, g5⟩ := ih rs tv0 tl0 tc0 n0 hrest
        subst h1
        refine ⟨?_, ?_, ?_, ?_, ?_⟩
        · simp [← h2, g1]
        · simp [← h3, g2]
        · simp [← h4, g3]
        · simp [← h5, g4]
        · intro v hv
          rcases List.mem_cons.mp hv with hv | hv
          · subst hv; exact processItem_region region item v hr
          · exact g5 v hv

/-- A successful details handling comes from a 200 response with a parseable
body whose item loop succeeded, and the stats are the built summary. -/
theorem handleDetails_ok (pr : DetailsData → String) (region : String)
    (dr : HttpResp DetailsData) (records : List VideoRecord) (rs : RegionStats)
    (h : handleDetails pr region dr = .ok (records, rs)) :
    ∃ data, dr.json = some data ∧ ∃ tv tl tc n,
      processItems region (data.items.getD []) = .ok (records, tv, tl, tc, n) ∧
      rs = .stats (mkStatsSummary tv tl tc n) := by
  simp only [handleDetails, Bind.bind, Except.bind] at h
  by_cases hs : dr.status = 200
  · simp only [hs] at h
    cases hj : dr.json with
    | none => simp [hj] at h
    | some data =>
      simp only [hj] at h
      refine ⟨data, rfl, ?_⟩
      cases hp : processItems region (data.items.getD []) with
      | error e => simp [hp] at h
      | ok w =>
        obtain ⟨rs2, tv, tl, tc, n⟩ := w
        simp only [hp] at h
        injection h with h
        simp only [Prod.mk.injEq] at h
        obtain ⟨h1, h2⟩ := h
        subst h1
        exact ⟨tv, tl, tc, n, rfl, h2.symm⟩
  · simp [hs] at h

/-- Case analysis of a successful fetch: either the zero-identifier search
path returning the empty list and the empty dict, or a details response whose
item loop produced the records and the built stats summary. -/
theorem fetch_ok_cases (pr : DetailsData → String) (sr : HttpResp SearchData)
    (dr : HttpResp DetailsData) (ak region : String) (mr : Nat) (q : String)
    (rk : Int) (records : List VideoRecord) (rs : RegionStats)
    (h : (fetch_popular_videos pr sr dr ak region mr q rk).1 = .ok (records, rs)) :
    (records = [] ∧ rs = .empty) ∨
    (∃ data, dr.json = some data ∧ ∃ tv tl tc n,
      processItems region (data.items.getD []) = .ok (records, tv, tl, tc, n) ∧
      rs = .stats (mkStatsSummary tv tl tc n)) := by
  by_cases hq : q = ""
  · simp only [fetch_popular_videos, hq] at h
    simp at h
    exact Or.inr (handleDetails_ok pr region dr records rs h)
  · by_cases hs : sr.status = 200
    · cases hj : sr.json with
      | none => simp [fetch_popular_videos, hq, hs, hj] at h
      | some sdata =>
        by_cases hids : (sdata.items.getD []).map SearchItem.videoId = []
        · simp [fetch_popular_videos, hq, hs, hj, hids] at h
          exact Or.inl ⟨h.1, h.2.symm⟩
        · simp [fetch_popular_videos, hq, hs, hj, hids] at h
          exact Or.inr (handleDetails_ok pr region dr records rs h)
    · simp [fetch_popular_videos, hq, hs] at h

/-- Overwriting the region field with the value it already holds is the
identity on a record. -/
theorem setRegion_self (region : String) (v : VideoRecord) (h : v.region = region) :
    { v with region := region } = v := by
  cases v
  simp only [VideoRecord.mk.injEq]
  simp at h
  subst h
  simp

/-- C1: for every valid non-empty details response processed by
`fetch_popular_videos`, the returned stats summary satisfies
`total_views = sum of the views of the returned records` (and analogously
likes and comments), and `video_count = number of returned records`; the sums
and the count are accumulated by `processItems`, the single pass that also
builds the normalized records. -/
theorem fetch_stats_single_pass_totals (pr : DetailsData → String)
    (sr : HttpResp SearchData) (dr : HttpResp DetailsData)
    (ak region : String) (mr : Nat) (q : String) (rk : Int)
    (records : List VideoRecord) (s : StatsSummary)
    (hok : (fetch_popular_videos pr sr dr ak region mr q rk).1 =
      .ok (records, .stats s))
    (hne : records ≠ []) :
    s.total_views = (records.map VideoRecord.views).sum ∧
    s.total_likes = (records.map VideoRecord.likes).sum ∧
    s.total_comments = (records.map VideoRecord.comments).sum ∧
    s.video_count = records.length := by
  rcases fetch_ok_cases pr sr dr ak region mr q rk records (.stats s) hok with
    ⟨h1, h2⟩ | ⟨data, hj, tv, tl, tc, n, hp, hs2⟩
  · exact absurd h1 hne
  · obtain ⟨g1, g2, g3, g4, g5⟩ :=
      processItems_ok_inv region (data.items.getD []) records tv tl tc n hp
    injection hs2 with hs2
    subst hs2
    refine ⟨?_, ?_, ?_, ?_⟩
    · simpa [mkStatsSummary] using g1
    · simpa [mkStatsSummary] using g2
    · simpa [mkStatsSummary] using g3
    · simpa [mkStatsSummary] using g4

/-- Witness for C1: a one-item 200 details response on the chart path. -/
theorem fetch_stats_single_pass_totals_witness :
    (mkStatsSummary 10 2 1 1).total_views = ([recW].map VideoRecord.views).sum ∧
    (mkStatsSummary 10 2 1 1).total_likes = ([recW].map VideoRecord.likes).sum ∧
    (mkStatsSummary 10 2 1 1).total_comments = ([recW].map VideoRecord.comments).sum ∧
    (mkStatsSummary 10 2 1 1).video_count = [recW].length :=
  fetch_stats_single_pass_totals prW srW drW "k" "KR" 10 "" 0 [recW]
    (mkStatsSummary 10 2 1 1) rfl (by decide)

/-- C6: on every successful fetch, when the video count is positive each of
the three averages equals the corresponding total divided by the count
exactly, and when the count is zero the stats object carries no average
fields, so no division by zero occurs. -/
theorem fetch_averages_exact (pr : DetailsData → String)
    (sr : HttpResp SearchData) (dr : HttpResp DetailsData)
    (ak region : String) (mr : Nat) (q : String) (rk : Int)
    (records : List VideoRecord) (s : StatsSummary)
    (hok : (fetch_popular_videos pr sr dr ak region mr q rk).1 =
      .ok (records, .stats s)) :
    (s.video_count > 0 →
      s.avg_views = some ((s.total_views : ℚ) / (s.video_count : ℚ)) ∧
      s.avg_likes = some ((s.total_likes : ℚ) / (s.video_count : ℚ)) ∧
      s.avg_comments = some ((s.total_comments : ℚ) / (s.video_count : ℚ))) ∧
    (s.video_count = 0 →
      s.avg_views = none ∧ s.avg_likes = none ∧ s.avg_comments = none) := by
  rcases fetch_ok_cases pr sr dr ak region mr q rk records (.stats s) hok with
    ⟨h1, h2⟩ | ⟨data, hj, tv, tl, tc, n, hp, hs2⟩
  · simp at h2
  · injection hs2 with hs2
    subst hs2
    constructor
    · intro hn
      simp only [mkStatsSummary] at hn ⊢
      simp [hn]
    · intro hn
      simp only [mkStatsSummary] at hn ⊢
      simp [hn]

/-- Witness for C6: the sample fetch has count 1 and average views 10. -/
theorem fetch_averages_exact_witness :
    (mkStatsSummary 10 2 1 1).avg_views = some ((10 : ℚ)) := by
  have h := fetch_averages_exact prW srW drW "k" "KR" 10 "" 0 [recW]
    (mkStatsSummary 10 2 1 1) rfl
  have h2 := (h.1 (by decide)).1
  rw [h2]
  norm_num [mkStatsSummary]

/-- C10: every record returned by `fetch_popular_videos` already has its
region field equal to the region argument, so the post-hoc tagging performed
by `main` with the same region leaves every record unchanged. -/
theorem fetch_region_tagging_identity (pr : DetailsData → String)
    (sr : HttpResp SearchData) (dr : HttpResp DetailsData)
    (ak region : String) (mr : Nat) (q : String) (rk : Int)
    (records : List VideoRecord) (rs : RegionStats)
    (hok : (fetch_popular_videos pr sr dr ak region mr q rk).1 =
      .ok (records, rs)) :
    (∀ v ∈ records, v.region = region) ∧
    tagRegion region records = records := by
  have hreg : ∀ v ∈ records, v.region = region := by
    rcases fetch_ok_cases pr sr dr ak region mr q rk records rs hok with
      ⟨h1, h2⟩ | ⟨data, hj, tv, tl, tc, n, hp, hs2⟩
    · subst h1; intro v hv; cases hv
    · exact (processItems_ok_inv region (data.items.getD [])
        records tv tl tc n hp).2.2.2.2
  refine ⟨hreg, ?_⟩
  unfold tagRegion
  calc records.map (fun v => { v with region := region })
      = records.map id := List.map_congr_left (fun v hv => setRegion_self region v (hreg v hv))
    _ = records := List.map_id records

/-- Witness for C10: tagging the sample fetch result with its region is the
identity. -/
theorem fetch_region_tagging_identity_witness :
    (∀ v ∈ [recW], v.region = "KR") ∧ tagRegion "KR" [recW] = [recW] :=
  fetch_region_tagging_identity prW srW drW "k" "KR" 10 "" 0 [recW]
    (.stats (mkStatsSummary 10 2 1 1)) rfl

/-- C5: the thumbnail URL of a normalized record is chosen by the preference
order high → medium → default → empty string, the first non-empty candidate
winning: the source expression equals the spec-side first-non-empty selector,
and on {medium: "m", default: "d"} with no high it picks "m", while with no
thumbnails at all it picks "". -/
theorem thumbnail_preference_order :
    (∀ t : Thumbnails,
      thumbUrlOf t = firstNonEmptySpec [urlOf t.high, urlOf t.medium, urlOf t.default]) ∧
    thumbUrlOf ⟨none, some ⟨some "m"⟩, some ⟨some "d"⟩⟩ = "m" ∧
    thumbUrlOf ⟨none, none, none⟩ = "" := by
  refine ⟨?_, rfl, rfl⟩
  intro t
  rcases t with ⟨h, m, d⟩
  rcases h with _ | ⟨_ | hs⟩ <;> rcases m with _ | ⟨_ | ms⟩ <;>
    rcases d with _ | ⟨_ | ds⟩ <;>
    simp [thumbUrlOf, urlOf, firstNonEmptySpec, pyOrStr]

/-- C4 counterexample: in a details response whose second item carries the
non-numeric viewCount "abc", the `int()` conversion raises and the whole
fetch fails, so a parse failure on one item's count does crash processing of
the whole batch instead of defaulting that count to 0. -/
theorem count_parse_failure_aborts_batch :
    (fetch_popular_videos prW srW drBad "k" "KR" 10 "" 0).1 =
      .error "invalid literal for int() with base 10: abc" := by rfl

/-- The three counts of a successfully processed item are exactly what
`int()` returned for the three statistics fields (lines 172-174), which the
code treats alike. -/
theorem processItem_ok_counts (region : String) (item : DetailsItem)
    (r : VideoRecord) (h : processItem region item = .ok r) :
    pyInt (item.statistics.getD ⟨none, none, none⟩).viewCount = .ok r.views ∧
    pyInt (item.statistics.getD ⟨none, none, none⟩).likeCount = .ok r.likes ∧
    pyInt (item.statistics.getD ⟨none, none, none⟩).commentCount = .ok r.comments := by
  unfold processItem at h
  cases hv : pyInt (item.statistics.getD ⟨none, none, none⟩).viewCount with
  | error e => simp [hv, Bind.bind, Except.bind] at h
  | ok v =>
    cases hl : pyInt (item.statistics.getD ⟨none, none, none⟩).likeCount with
    | error e => simp [hv, hl, Bind.bind, Except.bind] at h
    | ok l =>
      cases hc : pyInt (item.statistics.getD ⟨none, none, none⟩).commentCount with
      | error e => simp [hv, hl, hc, Bind.bind, Except.bind] at h
      | ok c =>
        simp only [hv, hl, hc, Bind.bind, Except.bind] at h
        injection h with h
        subst h
        exact ⟨rfl, rfl, rfl⟩

/-- A successful batch implies every item of the batch was processed
successfully (the loop has no per-item error recovery). -/
theorem processItems_ok_all (region : String) :
    ∀ (its : List DetailsItem) out, processItems region its = .ok out →
    ∀ it ∈ its, ∃ r, processItem region it = .ok r := by
  intro its
  induction its with
  | nil => intro out h it hit; cases hit
  | cons item rest ih =>
    intro out h it hit
    simp only [processItems, Bind.bind, Except.bind] at h
    cases hr : processItem region item with
    | error e => simp [hr] at h
    | ok r =>
      cases hrest : processItems region rest with
      | error e => simp [hr, hrest] at h
      | ok w =>
        rcases List.mem_cons.mp hit with hit | hit
        · subst hit; exact ⟨r, hr⟩
        · exact ih w hrest it hit

/-- C4 amended: each of the three counts (views, likes, comments) defaults to
0 when its field is missing from the statistics dict; a present field's value
is whatever `int()` converts it to, used as-is (so negative values pass
through); and a conversion failure in any of the three fields aborts the item
with a raised error — a batch succeeds only if every item's three counts
converted, so one bad count crashes the whole batch. -/
theorem count_extraction_behavior (region : String) (item : DetailsItem) :
    ((item.statistics.getD ⟨none, none, none⟩).viewCount = none →
      ∀ r, processItem region item = .ok r → r.views = 0) ∧
    ((item.statistics.getD ⟨none, none, none⟩).likeCount = none →
      ∀ r, processItem region item = .ok r → r.likes = 0) ∧
    ((item.statistics.getD ⟨none, none, none⟩).commentCount = none →
      ∀ r, processItem region item = .ok r → r.comments = 0) ∧
    (∀ i, pyInt (item.statistics.getD ⟨none, none, none⟩).viewCount = .ok i →
      ∀ r, processItem region item = .ok r → r.views = i) ∧
    (∀ i, pyInt (item.statistics.getD ⟨none, none, none⟩).likeCount = .ok i →
      ∀ r, processItem region item = .ok r → r.likes = i) ∧
    (∀ i, pyInt (item.statistics.getD ⟨none, none, none⟩).commentCount = .ok i →
      ∀ r, processItem region item = .ok r → r.comments = i) ∧
    ((∃ e, pyInt (item.statistics.getD ⟨none, none, none⟩).viewCount = .error e ∨
        pyInt (item.statistics.getD ⟨none, none, none⟩).likeCount = .error e ∨
        pyInt (item.statistics.getD ⟨none, none, none⟩).commentCount = .error e) →
      ∃ msg, processItem region item = .error msg) ∧
    (∀ its out, item ∈ its → processItems region its = .ok out →
      ∃ r, processItem region item = .ok r) := by
  refine ⟨?_, ?_, ?_, ?_, ?_, ?_, ?_, ?_⟩
  · intro h0 r hr
    have h := (processItem_ok_counts region item r hr).1
    rw [h0] at h
    simp [pyInt] at h
    omega
  · intro h0 r hr
    have h := (processItem_ok_counts region item r hr).2.1
    rw [h0] at h
    simp [pyInt] at h
    omega
  · intro h0 r hr
    have h := (processItem_ok_counts region item r hr).2.2
    rw [h0] at h
    simp [pyInt] at h
    omega
  · intro i hi r hr
    have h := (processItem_ok_counts region item r hr).1
    rw [hi] at h
    injection h with h
    exact h.symm
  · intro i hi r hr
    have h := (processItem_ok_counts region item r hr).2.1
    rw [hi] at h
    injection h with h
    exact h.symm
  · intro i hi r hr
    have h := (processItem_ok_counts region item r hr).2.2
    rw [hi] at h
    injection h with h
    exact h.symm
  · rintro ⟨e, he⟩
    cases hp : processItem region item with
    | error msg => exact ⟨msg, rfl⟩
    | ok r =>
      obtain ⟨hv, hl, hc⟩ := processItem_ok_counts region item r hp
      rcases he with he | he | he
      · rw [he] at hv; simp at hv
      · rw [he] at hl; simp at hl
      · rw [he] at hc; simp at hc
  · intro its out hmem hok
    exact processItems_ok_all region its out hok item hmem

/-- Witness for C4's amended theorem: all three counts default to 0 for an
item with no statistics dict, and the bad-viewCount item fails. -/
theorem count_extraction_behavior_witness :
    rNoStats.views = 0 ∧ rNoStats.likes = 0 ∧ rNoStats.comments = 0 ∧
    (∃ msg, processItem "KR" itemBadCount = .error msg) :=
  ⟨(count_extraction_behavior "KR" itemNoStats).1 rfl rNoStats rfl,
   (count_extraction_behavior "KR" itemNoStats).2.1 rfl rNoStats rfl,
   (count_extraction_behavior "KR" itemNoStats).2.2.1 rfl rNoStats rfl,
   (count_extraction_behavior "KR" itemBadCount).2.2.2.2.2.2.1
     ⟨"invalid literal for int() with base 10: " ++ "abc", Or.inl rfl⟩⟩

/-- Any non-200 details response raises with the status and the best-effort
payload in the message (lines 150-155). -/
theorem handleDetails_non2xx (pr : DetailsData → String) (region : String)
    (dr : HttpResp DetailsData) (h : dr.status ≠ 200) :
    handleDetails pr region dr = .error (detailsErrMsg pr dr) := by
  simp [handleDetails, h]

/-- A repr-plain character is emitted verbatim by `pyReprCharL` under either
quote choice. -/
theorem pyReprCharL_plain (q : Nat) (c : Char) (hq : q = 39 ∨ q = 34)
    (h : reprPlain c = true) : pyReprCharL q c = [c] := by
  simp only [reprPlain, Bool.and_eq_true, decide_eq_true_eq] at h
  unfold pyReprCharL
  rcases hq with hq | hq <;> subst hq <;> split_ifs <;>
    first
      | rfl
      | omega
      | (simp only [Bool.or_eq_true, decide_eq_true_eq] at *; omega)

/-- Mapping `pyReprCharL` over repr-plain characters is the identity. -/
theorem flatten_reprPlain (l : List Char) (h : ∀ c ∈ l, reprPlain c = true) :
    (l.map (pyReprCharL 39)).flatten = l := by
  induction l with
  | nil => rfl
  | cons c cs ih =>
    simp only [List.map_cons, List.flatten_cons]
    rw [pyReprCharL_plain 39 c (Or.inl rfl) (h c (List.mem_cons_self c cs)),
      ih (fun d hd => h d (List.mem_cons_of_mem c hd))]
    rfl

/-- For a string of repr-plain characters, Python repr() is the string
wrapped in single quotes, unchanged. -/
theorem pyReprStr_plain (s : String) (h : ∀ c ∈ s.data, reprPlain c = true) :
    (pyReprStr s).data = Char.ofNat 39 :: (s.data ++ [Char.ofNat 39]) := by
  have h39 : s.data.any (fun c => c.toNat == 39) = false := by
    simp only [List.any_eq_false]
    intro c hc
    have hp := h c hc
    simp only [reprPlain, Bool.and_eq_true, decide_eq_true_eq] at hp
    simp only [beq_iff_eq]
    omega
  simp only [pyReprStr, h39, Bool.false_and, Bool.false_eq_true, if_false]
  rw [flatten_reprPlain s.data h]

/-- C2 counterexample: a 403 search response with body text "quotaExceeded"
makes the fetch raise a message built only from the raw response text
(line 123); the message does not contain the status code 403, refuting that
every non-2xx error message includes the HTTP status code. -/
theorem search_error_message_lacks_status :
    (fetch_popular_videos prW srQuota drW "k" "KR" 10 "q" 0).1 =
      .error ("검색 API 오류: quotaExceeded") ∧
    ¬ ("403".toList <:+: ("검색 API 오류: quotaExceeded").toList) :=
  ⟨rfl, by decide⟩

/-- C2 amended: every non-2xx response fails the fetch immediately on both
call paths, the details path being reached both in chart mode and in the
search-then-hydrate flow; the details-path message contains the HTTP status
code and the parsed JSON error body, or the str()-rendered fallback dict
holding the raw response text when JSON parsing fails (the raw text appearing
verbatim whenever it contains no characters Python repr() escapes); the
search-path message contains the raw response text only and omits the status
code. -/
theorem non2xx_failfast (pr : DetailsData → String) (sr : HttpResp SearchData)
    (dr : HttpResp DetailsData) (ak region : String) (mr : Nat) (q : String)
    (rk : Int) :
    (q ≠ "" → ¬ (200 ≤ sr.status ∧ sr.status < 300) →
      (fetch_popular_videos pr sr dr ak region mr q rk).1 =
        .error ("검색 API 오류: " ++ sr.text) ∧
      sr.text.toList <:+: ("검색 API 오류: " ++ sr.text).toList) ∧
    (q = "" → ¬ (200 ≤ dr.status ∧ dr.status < 300) →
      (fetch_popular_videos pr sr dr ak region mr q rk).1 =
        .error (detailsErrMsg pr dr)) ∧
    (∀ sdata, q ≠ "" → sr.status = 200 → sr.json = some sdata →
      (sdata.items.getD []).map SearchItem.videoId ≠ [] →
      ¬ (200 ≤ dr.status ∧ dr.status < 300) →
      (fetch_popular_videos pr sr dr ak region mr q rk).1 =
        .error (detailsErrMsg pr dr)) ∧
    ((toString dr.status).toList <:+: (detailsErrMsg pr dr).toList ∧
     (errPayloadStr pr dr).toList <:+: (detailsErrMsg pr dr).toList ∧
     (∀ j, dr.json = some j → errPayloadStr pr dr = pr j) ∧
     (dr.json = none →
       errPayloadStr pr dr =
         "\x7b\x27message\x27: " ++ pyReprStr dr.text ++ "\x7d" ∧
       ((∀ c ∈ dr.text.data, reprPlain c = true) →
         dr.text.toList <:+: (detailsErrMsg pr dr).toList))) := by
  refine ⟨?_, ?_, ?_, ?_, ?_, ?_, ?_⟩
  · intro hq hs2
    have hs : sr.status ≠ 200 := by omega
    constructor
    · simp [fetch_popular_videos, hq, hs]
    · simp only [String.toList, String.data_append]
      exact ⟨"검색 API 오류: ".data, [], by simp⟩
  · intro hq hs2
    have hs : dr.status ≠ 200 := by omega
    simp [fetch_popular_videos, hq, handleDetails_non2xx pr region dr hs]
  · intro sdata hq hs200 hj hids hs2
    have hs : dr.status ≠ 200 := by omega
    simp [fetch_popular_videos, hq, hs200, hj, hids,
      handleDetails_non2xx pr region dr hs]
  · simp only [detailsErrMsg, String.toList, String.data_append]
    exact ⟨"YouTube API 오류: HTTP ".data,
      " - ".data ++ (errPayloadStr pr dr).data, by simp⟩
  · simp only [detailsErrMsg, String.toList, String.data_append]
    exact ⟨"YouTube API 오류: HTTP ".data ++ (toString dr.status).data ++
      " - ".data, [], by simp⟩
  · intro j hj
    simp [errPayloadStr, hj]
  · intro hj
    refine ⟨by simp [errPayloadStr, hj], ?_⟩
    intro hplain
    have hrepr := pyReprStr_plain dr.text hplain
    have h1 : dr.text.data <:+: (pyReprStr dr.text).data := by
      rw [hrepr]
      exact ⟨[Char.ofNat 39], [Char.ofNat 39], by simp⟩
    have h2 : (pyReprStr dr.text).data <:+: (detailsErrMsg pr dr).data := by
      simp only [detailsErrMsg, errPayloadStr, hj, String.data_append]
      exact ⟨"YouTube API 오류: HTTP ".data ++ (toString dr.status).data ++
        " - ".data ++ "\x7b\x27message\x27: ".data, "\x7d".data, by simp⟩
    simpa [String.toList] using h1.trans h2

/-- Witness for C2's amended theorem: a 403 search failure, a 500 details
failure in chart mode, the same 500 details failure after a successful
one-hit search, and the raw text "boom" inside the fallback message. -/
theorem non2xx_failfast_witness :
    (fetch_popular_videos prW srQuota drW "k" "KR" 10 "q" 0).1 =
      .error ("검색 API 오류: " ++ srQuota.text) ∧
    (fetch_popular_videos prW srW drBoom "k" "KR" 10 "" 0).1 =
      .error (detailsErrMsg prW drBoom) ∧
    (fetch_popular_videos prW srOne drBoom "k" "KR" 10 "q" 0).1 =
      .error (detailsErrMsg prW drBoom) ∧
    "boom".toList <:+: (detailsErrMsg prW drBoom).toList :=
  ⟨((non2xx_failfast prW srQuota drW "k" "KR" 10 "q" 0).1
      (by decide) (by decide)).1,
   (non2xx_failfast prW srW drBoom "k" "KR" 10 "" 0).2.1 rfl (by decide),
   (non2xx_failfast prW srOne drBoom "k" "KR" 10 "q" 0).2.2.1
     ⟨some [⟨"vid1"⟩]⟩ (by decide) rfl rfl (by decide) (by decide),
   ((non2xx_failfast prW srW drBoom "k" "KR" 10 "" 0).2.2.2.2.2.2
      rfl).2 (by decide)⟩

/-- C3 counterexample: on the chart path a 200 details response with zero
items yields an empty video list paired with the zero-filled stats dict,
which is a different value from the empty "no data" dict and is truthy under
the caller's `if stats:` check — so an empty video sequence does not come
with the empty/absent stats object. -/
theorem empty_videos_zero_filled_stats :
    (fetch_popular_videos prW srW drEmpty "k" "KR" 10 "" 0).1 =
      .ok ([], .stats (mkStatsSummary 0 0 0 0)) ∧
    RegionStats.stats (mkStatsSummary 0 0 0 0) ≠ RegionStats.empty ∧
    (RegionStats.stats (mkStatsSummary 0 0 0 0)).truthy = true :=
  ⟨rfl, fun h => RegionStats.noConfusion h, rfl⟩

/-- C3 amended: a search that returns zero identifiers yields the empty list
together with the empty stats dict and issues no details call (the call trace
is exactly the one search call); an empty video sequence from a details
response instead comes with zero-filled stats. -/
theorem zero_id_search_empty_no_details (pr : DetailsData → String)
    (sr : HttpResp SearchData) (dr : HttpResp DetailsData)
    (ak region : String) (mr : Nat) (q : String) (rk : Int)
    (sdata : SearchData)
    (hq : q ≠ "") (hs : sr.status = 200) (hj : sr.json = some sdata)
    (hids : (sdata.items.getD []).map SearchItem.videoId = []) :
    fetch_popular_videos pr sr dr ak region mr q rk =
      (.ok ([], .empty), [ApiCall.searchCall q mr region ak]) := by
  simp [fetch_popular_videos, hq, hs, hj, hids]

/-- Witness for C3's amended theorem: a search with `items: []`. -/
theorem zero_id_search_empty_no_details_witness :
    fetch_popular_videos prW srNoHits drW "k" "KR" 10 "q" 0 =
      (.ok ([], .empty), [ApiCall.searchCall "q" 10 "KR" "k"]) :=
  zero_id_search_empty_no_details prW srNoHits drW "k" "KR" 10 "q" 0
    ⟨some []⟩ (by decide) rfl rfl rfl

/-- C7: two calls to the cached fetch with the identical full key (same
arguments and same invalidation token), the first computing the entry and the
second within the 300-second TTL window, return equal results, and the second
call performs no underlying fetch invocation. -/
theorem cache_idempotent {α : Type} (f : CacheKey → α)
    (st0 : List (CacheKey × α × Int)) (k : CacheKey) (t0 t1 : Int)
    (hmiss : cacheLookup st0 k = none) (_h01 : t0 ≤ t1) (hwin : t1 - t0 < 300) :
    (fetchCached f 300 t1 (fetchCached f 300 t0 st0 k).2.1 k).1 =
      (fetchCached f 300 t0 st0 k).1 ∧
    (fetchCached f 300 t1 (fetchCached f 300 t0 st0 k).2.1 k).2.2 = 0 := by
  simp only [fetchCached, hmiss]
  simp [cacheLookup, hwin]

/-- Witness for C7: a cold call at time 0 and a repeat call at time 10. -/
theorem cache_idempotent_witness :
    (fetchCached (fun _ => (42 : Nat)) 300 10
        (fetchCached (fun _ => (42 : Nat)) 300 0 [] kW).2.1 kW).1 =
      (fetchCached (fun _ => (42 : Nat)) 300 0 [] kW).1 ∧
    (fetchCached (fun _ => (42 : Nat)) 300 10
        (fetchCached (fun _ => (42 : Nat)) 300 0 [] kW).2.1 kW).2.2 = 0 :=
  cache_idempotent (fun _ => 42) [] kW 0 10 rfl (by decide) (by decide)

/-- C8 counterexample: with still-fresh cache entries for the token values 0
and 1, a call whose key changes only the invalidation token from 1 back to 0
is served from the cache with zero underlying fetch invocations — changing
only the token does not always force a miss and a new network fetch. -/
theorem token_change_without_fetch :
    kW = { kW1 with refresh_key := 0 } ∧
    kW.refresh_key ≠ kW1.refresh_key ∧
    fetchCached (fun _ => (7 : Nat)) 300 10 stBoth kW = (5, stBoth, 0) :=
  ⟨rfl, by decide, rfl⟩

/-- C8 amended: changing only the invalidation token forces a cache miss and
one new underlying fetch, even while the old token's entry is within its TTL
window, whenever the new token value is not itself already cached (as with a
fresh refresh timestamp); a reused token value may instead hit its own
still-fresh entry. -/
theorem fresh_token_forces_fetch {α : Type} (f : CacheKey → α)
    (st : List (CacheKey × α × Int)) (k : CacheKey) (rk2 now ts : Int) (r : α)
    (_hch : rk2 ≠ k.refresh_key)
    (_hold : cacheLookup st k = some (r, ts)) (_hfresh : now - ts < 300)
    (hnew : cacheLookup st { k with refresh_key := rk2 } = none) :
    (fetchCached f 300 now st { k with refresh_key := rk2 }).2.2 = 1 ∧
    (fetchCached f 300 now st { k with refresh_key := rk2 }).1 =
      f { k with refresh_key := rk2 } := by
  simp [fetchCached, hnew]

/-- Witness for C8's amended theorem: token 1 has a fresh entry, switching to
the never-used token 2 still fetches. -/
theorem fresh_token_forces_fetch_witness :
    (fetchCached (fun _ => (9 : Nat)) 300 10 [(kW1, 6, 0)]
        { kW1 with refresh_key := 2 }).2.2 = 1 ∧
    (fetchCached (fun _ => (9 : Nat)) 300 10 [(kW1, 6, 0)]
        { kW1 with refresh_key := 2 }).1 = 9 :=
  fresh_token_forces_fetch (fun _ => 9) [(kW1, 6, 0)] kW1 2 10 0 6
    (by decide) rfl (by decide) rfl

/-- The chosen comparison is total for every sort field. -/
theorem fieldLe_total (f : SortField) (a b : VideoRecord) :
    fieldLe f a b || fieldLe f b a := by
  cases f <;> simp [fieldLe] <;> exact le_total _ _

/-- The chosen comparison is transitive for every sort field. -/
theorem fieldLe_trans (f : SortField) (a b c : VideoRecord)
    (h1 : fieldLe f a b) (h2 : fieldLe f b c) : fieldLe f a c := by
  cases f <;> simp [fieldLe] at h1 h2 ⊢ <;> exact le_trans h1 h2

/-- C9: the sort applied by `display_videos` is a pure stable sort of the
concatenated list: the output is a permutation of the input; every mode whose
ascending flag is false sorts descending in its key and the ascending mode
sorts ascending; two input-ordered tied elements keep their input order; and
on views [100, 500, 100] from regions [A, B, A] the descending views sort
returns [B(500), A(100 first), A(100 second)]. -/
theorem display_sort_stable_spec :
    (∀ sb (xs : List VideoRecord), List.Perm (display_sort sb xs) xs) ∧
    (∀ sb (xs : List VideoRecord), (sort_options sb).2 = false →
      (display_sort sb xs).Pairwise
        (fun a b => fieldLe (sort_options sb).1 b a = true)) ∧
    (∀ sb (xs : List VideoRecord), (sort_options sb).2 = true →
      (display_sort sb xs).Pairwise
        (fun a b => fieldLe (sort_options sb).1 a b = true)) ∧
    (∀ sb (xs : List VideoRecord) (a b : VideoRecord), List.Sublist [a, b] xs →
      fieldLe (sort_options sb).1 a b = true →
      fieldLe (sort_options sb).1 b a = true →
      List.Sublist [a, b] (display_sort sb xs)) ∧
    display_sort "조회수" [vA1, vB, vA2] = [vB, vA1, vA2] := by
  refine ⟨?_, ?_, ?_, ?_, ?_⟩
  · intro sb xs
    unfold display_sort
    cases hasc : (sort_options sb).2 <;> simp [hasc] <;>
      exact List.mergeSort_perm xs _
  · intro sb xs hasc
    unfold display_sort
    simp only [hasc, Bool.false_eq_true, if_false]
    exact List.sorted_mergeSort
      (fun a b c hab hbc => fieldLe_trans (sort_options sb).1 c b a hbc hab)
      (fun a b => fieldLe_total (sort_options sb).1 b a) xs
  · intro sb xs hasc
    unfold display_sort
    simp only [hasc, if_true]
    exact List.sorted_mergeSort
      (fun a b c hab hbc => fieldLe_trans (sort_options sb).1 a b c hab hbc)
      (fun a b => fieldLe_total (sort_options sb).1 a b) xs
  · intro sb xs a b hsub hab hba
    unfold display_sort
    cases hasc : (sort_options sb).2 <;> simp only [hasc, if_true, Bool.false_eq_true, if_false]
    · exact List.pair_sublist_mergeSort
        (fun x y z hxy hyz => fieldLe_trans (sort_options sb).1 z y x hyz hxy)
        (fun x y => fieldLe_total (sort_options sb).1 y x) hba hsub
    · exact List.pair_sublist_mergeSort
        (fun x y z hxy hyz => fieldLe_trans (sort_options sb).1 x y z hxy hyz)
        (fun x y => fieldLe_total (sort_options sb).1 x y) hab hsub
  · simp [display_sort, sort_options, List.mergeSort, List.splitInTwo,
      List.splitAt, List.splitAt.go, List.merge, fieldLe, vA1, vB, vA2]

/-- Witness for C9: sortedness of a singleton sort and stability of the two
tied 100-view records in the concrete example. -/
theorem display_sort_stable_spec_witness :
    (display_sort "조회수" [vB]).Pairwise
      (fun a b => fieldLe (sort_options "조회수").1 b a = true) ∧
    List.Sublist [vA1, vA2] (display_sort "조회수" [vA1, vB, vA2]) :=
  ⟨display_sort_stable_spec.2.1 "조회수" [vB] rfl,
   display_sort_stable_spec.2.2.2.1 "조회수" [vA1, vB, vA2] vA1 vA2
     (List.Sublist.cons₂ vA1 (List.Sublist.cons vB (List.Sublist.refl [vA2])))
     (by decide) (by decide)⟩

end YT

